import Mathlib

/-!
Verification of the blog storage backend: a shallow embedding of the
Rust sources (models.rs, storage.rs, errors.rs, handlers/posts.rs,
handlers/comments.rs) and proofs about the claims of the specification.

Modelling conventions:
* `Uuid` and `Time` are `Nat` (ids are opaque; `DateTime<Utc>` values are
  abstract instants, totally ordered).
* Rust `String` is `Str := List Char`; `str::len` is the UTF-8 byte
  length `strBytes`, `str::trim` is `trim` using the Unicode White_Space
  predicate that `char::is_whitespace` implements.
* `HashMap<Uuid, Post>` is an association list `List (Uuid × Post)`;
  `insert` replaces the value of a present key, `remove` drops it.
* Each `Storage` method becomes a function from explicit state
  `StorageState` to a `(result, new state)` pair; the `Mutex` makes the
  Rust methods sequentially atomic, which explicit state passing
  reflects.  File persistence (`Storage::save`) is modelled by a
  `saveOk : Bool` parameter (whether serialization and the file write
  succeed) and a `file : Option Json` component holding the last
  successfully written snapshot.
* The lock discipline of each method (which statements run under the
  mutex) is modelled separately as an event trace, transliterated
  statement by statement from the method bodies.
-/

namespace Blog

/-- Model of `uuid::Uuid`: an opaque identity, coded as `Nat`. -/
abbrev Uuid := Nat

/-- Model of `chrono::DateTime<Utc>`: an abstract instant, coded as `Nat`. -/
abbrev Time := Nat

/-- Model of Rust `String`: a sequence of Unicode scalar values. -/
abbrev Str := List Char

/-- The Unicode White_Space property, which is exactly what Rust
`char::is_whitespace` tests (used by `str::trim`). -/
def rustIsWhitespace (c : Char) : Bool :=
  let n := c.toNat
  n = 0x09 || n = 0x0A || n = 0x0B || n = 0x0C || n = 0x0D || n = 0x20 ||
  n = 0x85 || n = 0xA0 || n = 0x1680 || (0x2000 ≤ n && n ≤ 0x200A) ||
  n = 0x2028 || n = 0x2029 || n = 0x202F || n = 0x205F || n = 0x3000

/-- Model of `str::trim`: remove leading and trailing whitespace. -/
def trim (s : Str) : Str :=
  ((s.dropWhile rustIsWhitespace).reverse.dropWhile rustIsWhitespace).reverse

/-- UTF-8 encoded length of one Unicode scalar value. -/
def utf8Len (c : Char) : Nat :=
  if c.toNat < 0x80 then 1
  else if c.toNat < 0x800 then 2
  else if c.toNat < 0x10000 then 3
  else 4

/-- Model of Rust `str::len` (number of UTF-8 bytes, not characters). -/
def strBytes (s : Str) : Nat := (s.map utf8Len).sum

/-- `errors.rs`: the `ApiError` enumeration. -/
inductive ApiError where
  | PostNotFound
  | CommentNotFound
  | ValidationError (msg : Str)
  | StorageError (msg : Str)
  | InternalError
deriving DecidableEq

/-- `models.rs`: the `Post` struct. -/
structure Post where
  id : Uuid
  title : Str
  content : Str
  author : Str
  created_at : Time
  updated_at : Time
deriving DecidableEq

/-- `models.rs`: the `CreatePost` request body. -/
structure CreatePost where
  title : Str
  content : Str
  author : Str
deriving DecidableEq

/-- `models.rs`: the `UpdatePost` request body. -/
structure UpdatePost where
  title : Option Str
  content : Option Str
deriving DecidableEq

/-- `models.rs`: the `Comment` struct. -/
structure Comment where
  id : Uuid
  post_id : Uuid
  content : Str
  author : Str
  created_at : Time
  updated_at : Time
deriving DecidableEq

/-- `models.rs`: the `CreateComment` request body. -/
structure CreateComment where
  post_id : Uuid
  content : Str
  author : Str
deriving DecidableEq

/-- `models.rs`, `Post::new`: builds a post from a `CreatePost`.  The
fresh uuid (`Uuid::new_v4()`) and the clock reading (`Utc::now()`) are
explicit parameters of the model. -/
def Post.new (create_post : CreatePost) (freshId : Uuid) (now : Time) : Post :=
  { id := freshId
    title := create_post.title
    content := create_post.content
    author := create_post.author
    created_at := now
    updated_at := now }

/-- `models.rs`, `Post::update`: overwrite each present field, always
refresh `updated_at`; returns `ApiResult<()>` in Rust, here the updated
post.  The clock reading is an explicit parameter. -/
def Post.update (self : Post) (update_post : UpdatePost) (now : Time) :
    Except ApiError Post :=
  let p1 := match update_post.title with
    | some title => { self with title := title }
    | none => self
  let p2 := match update_post.content with
    | some content => { p1 with content := content }
    | none => p1
  .ok { p2 with updated_at := now }

/-- `models.rs`, `Comment::new`: builds a comment from a `CreateComment`;
fresh uuid and clock reading are explicit parameters. -/
def Comment.new (create_comment : CreateComment) (freshId : Uuid) (now : Time) :
    Comment :=
  { id := freshId
    post_id := create_comment.post_id
    content := create_comment.content
    author := create_comment.author
    created_at := now
    updated_at := now }

/-- `HashMap::get` on the association-list model. -/
def postsGet (id : Uuid) : List (Uuid × Post) → Option Post
  | [] => none
  | kv :: rest => if kv.1 = id then some kv.2 else postsGet id rest

/-- `HashMap::insert` on the association-list model: replace the value
of a present key, otherwise add the binding. -/
def postsInsert (id : Uuid) (p : Post) (m : List (Uuid × Post)) :
    List (Uuid × Post) :=
  if m.any (fun kv => kv.1 = id) then
    m.map (fun kv => if kv.1 = id then (id, p) else kv)
  else
    m ++ [(id, p)]

/-- `HashMap::remove` on the association-list model. -/
def postsRemove (id : Uuid) (m : List (Uuid × Post)) : List (Uuid × Post) :=
  m.filter (fun kv => !(kv.1 = id))

/-- `storage.rs`: the `BlogData` struct — the whole in-memory state. -/
structure BlogData where
  posts : List (Uuid × Post)
  comments : List Comment
deriving DecidableEq

/-- `storage.rs`, `BlogData::new`: empty state. -/
def BlogData.new : BlogData := { posts := [], comments := [] }

/-! ### The JSON snapshot

`Storage::save` serializes the whole `BlogData` with `serde_json` and
overwrites the snapshot file; `Storage::new` parses it back.  The model
mirrors the derived serde representation (spec section 6: one object
with a `posts` object keyed by uuid strings and a `comments` array;
uuids and timestamps as strings) as a JSON tree; printing and parsing
of JSON text are the external library and are not modelled. -/

/-- A JSON value. -/
inductive Json where
  | jnull
  | jbool (b : Bool)
  | jnum (n : Nat)
  | jstr (s : Str)
  | jarr (xs : List Json)
  | jobj (fields : List (Str × Json))

/-- One decimal digit as a character. -/
def digitChar (d : Nat) : Char :=
  if d = 0 then '0' else if d = 1 then '1' else if d = 2 then '2'
  else if d = 3 then '3' else if d = 4 then '4' else if d = 5 then '5'
  else if d = 6 then '6' else if d = 7 then '7' else if d = 8 then '8'
  else '9'

/-- The value of a decimal digit character. -/
def digitVal (c : Char) : Option Nat :=
  if c = '0' then some 0 else if c = '1' then some 1 else if c = '2' then some 2
  else if c = '3' then some 3 else if c = '4' then some 4 else if c = '5' then some 5
  else if c = '6' then some 6 else if c = '7' then some 7 else if c = '8' then some 8
  else if c = '9' then some 9 else none

/-- Little-endian decimal digits of a natural number (empty for 0). -/
def natDigits : Nat → List Char
  | 0 => []
  | n + 1 => digitChar ((n + 1) % 10) :: natDigits ((n + 1) / 10)
decreasing_by exact Nat.div_lt_self (Nat.succ_pos n) (by decide)

/-- Decimal representation of a natural number. -/
def natToStr (n : Nat) : Str :=
  if n = 0 then ['0'] else (natDigits n).reverse

/-- Value of a little-endian digit list. -/
def digitsToNat : Str → Option Nat
  | [] => some 0
  | c :: cs =>
    match digitVal c, digitsToNat cs with
    | some d, some v => some (d + 10 * v)
    | _, _ => none

/-- Parse a decimal representation. -/
def strToNat (s : Str) : Option Nat :=
  if s.isEmpty then none else digitsToNat s.reverse

/-- Field lookup in a JSON object (serde finds fields by name). -/
def jLookup (k : Str) : List (Str × Json) → Option Json
  | [] => none
  | kv :: rest => if kv.1 = k then some kv.2 else jLookup k rest

def keyId : Str := ['i', 'd']
def keyPostId : Str := ['p', 'o', 's', 't', '_', 'i', 'd']
def keyTitle : Str := ['t', 'i', 't', 'l', 'e']
def keyContent : Str := ['c', 'o', 'n', 't', 'e', 'n', 't']
def keyAuthor : Str := ['a', 'u', 't', 'h', 'o', 'r']
def keyCreatedAt : Str := ['c', 'r', 'e', 'a', 't', 'e', 'd', '_', 'a', 't']
def keyUpdatedAt : Str := ['u', 'p', 'd', 'a', 't', 'e', 'd', '_', 'a', 't']
def keyPosts : Str := ['p', 'o', 's', 't', 's']
def keyComments : Str := ['c', 'o', 'm', 'm', 'e', 'n', 't', 's']

/-- A uuid in the snapshot (uuids serialize as strings). -/
def uuidToJson (u : Uuid) : Json := .jstr (natToStr u)

def uuidFromJson : Json → Option Uuid
  | .jstr s => strToNat s
  | _ => none

/-- A timestamp in the snapshot (ISO-8601 strings; the model keeps the
injective string form of the abstract instant). -/
def timeToJson (t : Time) : Json := .jstr (natToStr t)

def timeFromJson : Json → Option Time
  | .jstr s => strToNat s
  | _ => none

def strFromJson : Json → Option Str
  | .jstr s => some s
  | _ => none

/-- Serialization of a `Post` (derived serde: one field per struct field). -/
def postToJson (p : Post) : Json :=
  .jobj [(keyId, uuidToJson p.id), (keyTitle, .jstr p.title),
         (keyContent, .jstr p.content), (keyAuthor, .jstr p.author),
         (keyCreatedAt, timeToJson p.created_at),
         (keyUpdatedAt, timeToJson p.updated_at)]

def postFromJson : Json → Option Post
  | .jobj fs =>
    match jLookup keyId fs, jLookup keyTitle fs, jLookup keyContent fs,
          jLookup keyAuthor fs, jLookup keyCreatedAt fs, jLookup keyUpdatedAt fs with
    | some j1, some j2, some j3, some j4, some j5, some j6 =>
      match uuidFromJson j1, strFromJson j2, strFromJson j3, strFromJson j4,
            timeFromJson j5, timeFromJson j6 with
      | some i, some t, some c, some a, some ca, some ua =>
        some { id := i, title := t, content := c, author := a,
               created_at := ca, updated_at := ua }
      | _, _, _, _, _, _ => none
    | _, _, _, _, _, _ => none
  | _ => none

/-- Serialization of a `Comment`. -/
def commentToJson (c : Comment) : Json :=
  .jobj [(keyId, uuidToJson c.id), (keyPostId, uuidToJson c.post_id),
         (keyContent, .jstr c.content), (keyAuthor, .jstr c.author),
         (keyCreatedAt, timeToJson c.created_at),
         (keyUpdatedAt, timeToJson c.updated_at)]

def commentFromJson : Json → Option Comment
  | .jobj fs =>
    match jLookup keyId fs, jLookup keyPostId fs, jLookup keyContent fs,
          jLookup keyAuthor fs, jLookup keyCreatedAt fs, jLookup keyUpdatedAt fs with
    | some j1, some j2, some j3, some j4, some j5, some j6 =>
      match uuidFromJson j1, uuidFromJson j2, strFromJson j3, strFromJson j4,
            timeFromJson j5, timeFromJson j6 with
      | some i, some pi', some c, some a, some ca, some ua =>
        some { id := i, post_id := pi', content := c, author := a,
               created_at := ca, updated_at := ua }
      | _, _, _, _, _, _ => none
    | _, _, _, _, _, _ => none
  | _ => none

/-- The posts map serializes as a JSON object keyed by uuid strings. -/
def postsToJson (m : List (Uuid × Post)) : List (Str × Json) :=
  m.map (fun kv => (natToStr kv.1, postToJson kv.2))

def postsFromJson : List (Str × Json) → Option (List (Uuid × Post))
  | [] => some []
  | (k, v) :: rest =>
    match strToNat k, postFromJson v, postsFromJson rest with
    | some u, some p, some m => some ((u, p) :: m)
    | _, _, _ => none

/-- The comments sequence serializes as a JSON array. -/
def commentsFromJson : List Json → Option (List Comment)
  | [] => some []
  | j :: rest =>
    match commentFromJson j, commentsFromJson rest with
    | some c, some cs => some (c :: cs)
    | _, _ => none

/-- Serialization of the whole state (`serde_json::to_string_pretty`
on `BlogData`, up to JSON text). -/
def blogDataToJson (d : BlogData) : Json :=
  .jobj [(keyPosts, .jobj (postsToJson d.posts)),
         (keyComments, .jarr (d.comments.map commentToJson))]

/-- Parsing of the whole state (`serde_json::from_str` in `Storage::new`,
up to JSON text). -/
def blogDataFromJson : Json → Option BlogData
  | .jobj fs =>
    match jLookup keyPosts fs, jLookup keyComments fs with
    | some (.jobj ps), some (.jarr cs) =>
      match postsFromJson ps, commentsFromJson cs with
      | some posts, some comments => some { posts := posts, comments := comments }
      | _, _ => none
    | _, _ => none
  | _ => none

/-! ### The storage layer -/

/-- The state owned by a `Storage`: the in-memory `BlogData` behind the
mutex, and the snapshot file contents (`none` until a first successful
save wrote it). -/
structure StorageState where
  data : BlogData
  file : Option Json

/-- The message standing for the formatted OS or serde error text that
`Storage::save` embeds into `StorageError` when a step fails. -/
def saveErrMsg : Str :=
  ['w', 'r', 'i', 't', 'e', ' ', 'f', 'a', 'i', 'l', 'e', 'd']

/-- `storage.rs`, `Storage::save`: serialize the current state and
overwrite the snapshot file.  `saveOk` abstracts whether serialization
and the file write succeed; on failure nothing observable changes and
a `StorageError` is returned. -/
def save (saveOk : Bool) (st : StorageState) :
    Except ApiError Unit × StorageState :=
  if saveOk then
    (.ok (), { st with file := some (blogDataToJson st.data) })
  else
    (.error (.StorageError saveErrMsg), st)

/-- `storage.rs`, `Storage::get_all_posts`: clone of the whole map. -/
def get_all_posts (st : StorageState) :
    Except ApiError (List (Uuid × Post)) × StorageState :=
  (.ok st.data.posts, st)

/-- `storage.rs`, `Storage::get_post`: clone of the post, or
`PostNotFound`. -/
def get_post (id : Uuid) (st : StorageState) :
    Except ApiError Post × StorageState :=
  match postsGet id st.data.posts with
  | some p => (.ok p, st)
  | none => (.error .PostNotFound, st)

/-- `storage.rs`, `Storage::create_post`: insert the post, release the
lock, save, return the post. -/
def create_post (saveOk : Bool) (post : Post) (st : StorageState) :
    Except ApiError Post × StorageState :=
  let st1 : StorageState :=
    { st with data := { st.data with posts := postsInsert post.id post st.data.posts } }
  match save saveOk st1 with
  | (.ok _, st2) => (.ok post, st2)
  | (.error e, st2) => (.error e, st2)

/-- `storage.rs`, `Storage::update_post`: find the post (`PostNotFound`
if absent), apply `Post::update` in place, save, return the clone of
the updated post. -/
def update_post (saveOk : Bool) (id : Uuid) (title content : Option Str)
    (now : Time) (st : StorageState) : Except ApiError Post × StorageState :=
  match postsGet id st.data.posts with
  | none => (.error .PostNotFound, st)
  | some post =>
    match Post.update post { title := title, content := content } now with
    | .error e => (.error e, st)
    | .ok updated_post =>
      let st1 : StorageState :=
        { st with data := { st.data with posts := postsInsert id updated_post st.data.posts } }
      match save saveOk st1 with
      | (.ok _, st2) => (.ok updated_post, st2)
      | (.error e, st2) => (.error e, st2)

/-- `storage.rs`, `Storage::delete_post`: remove the post (`PostNotFound`
if absent), retain only comments of other posts, save. -/
def delete_post (saveOk : Bool) (id : Uuid) (st : StorageState) :
    Except ApiError Unit × StorageState :=
  match postsGet id st.data.posts with
  | none => (.error .PostNotFound, st)
  | some _ =>
    let st1 : StorageState :=
      { st with data := { posts := postsRemove id st.data.posts,
                          comments := st.data.comments.filter (fun c => !(c.post_id = id)) } }
    match save saveOk st1 with
    | (.ok _, st2) => (.ok (), st2)
    | (.error e, st2) => (.error e, st2)

/-- `storage.rs`, `Storage::get_post_comments`: verify the post exists
via `get_post`, then return the comments with matching `post_id` in
sequence order. -/
def get_post_comments (post_id : Uuid) (st : StorageState) :
    Except ApiError (List Comment) × StorageState :=
  match get_post post_id st with
  | (.error e, st1) => (.error e, st1)
  | (.ok _, st1) =>
    (.ok (st1.data.comments.filter (fun c => c.post_id = post_id)), st1)

/-- `storage.rs`, `Storage::create_comment`: push the comment onto the
sequence, save, return it.  (The source performs no existence check on
`comment.post_id`.) -/
def create_comment (saveOk : Bool) (comment : Comment) (st : StorageState) :
    Except ApiError Comment × StorageState :=
  let st1 : StorageState :=
    { st with data := { st.data with comments := st.data.comments ++ [comment] } }
  match save saveOk st1 with
  | (.ok _, st2) => (.ok comment, st2)
  | (.error e, st2) => (.error e, st2)

/-- `storage.rs`, `Storage::delete_comment`: find the index of the first
comment with the id (`CommentNotFound` if none), remove it, save. -/
def delete_comment (saveOk : Bool) (id : Uuid) (st : StorageState) :
    Except ApiError Unit × StorageState :=
  match st.data.comments.findIdx? (fun c => c.id = id) with
  | none => (.error .CommentNotFound, st)
  | some index =>
    let st1 : StorageState :=
      { st with data := { st.data with comments := st.data.comments.eraseIdx index } }
    match save saveOk st1 with
    | (.ok _, st2) => (.ok (), st2)
    | (.error e, st2) => (.error e, st2)

/-- Loading an existing snapshot in `Storage::new`
(`serde_json::from_str`): a parse failure is a `StorageError`. -/
def loadData (j : Json) : Except ApiError BlogData :=
  match blogDataFromJson j with
  | some d => .ok d
  | none => .error (.StorageError saveErrMsg)

/-! ### The HTTP handlers (validation layer) -/

def msgTitleEmpty : Str := "Title cannot be empty".toList
def msgContentEmpty : Str := "Content cannot be empty".toList
def msgAuthorEmpty : Str := "Author cannot be empty".toList
def msgTitleTooLong : Str := "Title too long (max 200 characters)".toList

/-- `handlers/posts.rs`, `create_post` handler: the four validation
checks in source order (note: `new_post.title.len()` in Rust is the
UTF-8 byte length), then `Post::new` and `Storage::create_post`. -/
def create_post_handler (saveOk : Bool) (freshId : Uuid) (now : Time)
    (new_post : CreatePost) (st : StorageState) :
    Except ApiError Post × StorageState :=
  if (trim new_post.title).isEmpty then
    (.error (.ValidationError msgTitleEmpty), st)
  else if (trim new_post.content).isEmpty then
    (.error (.ValidationError msgContentEmpty), st)
  else if (trim new_post.author).isEmpty then
    (.error (.ValidationError msgAuthorEmpty), st)
  else if 200 < strBytes new_post.title then
    (.error (.ValidationError msgTitleTooLong), st)
  else
    create_post saveOk (Post.new new_post freshId now) st

/-- The rejection condition exactly as the claim words it: a field empty
after trimming, or a title of more than 200 characters.  (Stated from
the specification, for comparison with `create_post_handler`, which
counts bytes.) -/
def specCreateRejects (new_post : CreatePost) : Bool :=
  (trim new_post.title).isEmpty || (trim new_post.content).isEmpty ||
  (trim new_post.author).isEmpty || decide (200 < new_post.title.length)

/-! ### Lock-event traces

`Storage.data` is an `Arc<Mutex<BlogData>>`; every method locks it to
touch the state.  Each method body is transliterated here, statement by
statement, into the sequence of lock acquisitions, lock releases, state
accesses and file writes it performs, so that the lock discipline the
specification describes can be checked against the source. -/

inductive Ev where
  | lockAcquire
  | lockRelease
  | stateRead
  | stateMutate
  | fileWrite
deriving DecidableEq

/-- `Storage::save`: `self.data.lock()`, serialize (a read of the
state), `File::create` + `write_all` (still under the lock, since the
guard lives to the end of the function), guard dropped. -/
def save_evs : List Ev := [.lockAcquire, .stateRead, .fileWrite, .lockRelease]

/-- `Storage::get_all_posts`: lock, clone the map, guard dropped. -/
def get_all_posts_evs : List Ev := [.lockAcquire, .stateRead, .lockRelease]

/-- `Storage::get_post`: lock, look up and clone, guard dropped. -/
def get_post_evs : List Ev := [.lockAcquire, .stateRead, .lockRelease]

/-- `Storage::create_post`: lock, insert, `drop(data)`, then
`self.save()` which locks again. -/
def create_post_evs : List Ev :=
  [.lockAcquire, .stateMutate, .lockRelease] ++ save_evs

/-- `Storage::update_post`: lock, look up and mutate the post,
`drop(data)`, then `self.save()`. -/
def update_post_evs : List Ev :=
  [.lockAcquire, .stateRead, .stateMutate, .lockRelease] ++ save_evs

/-- `Storage::delete_post`: lock, remove the post and retain comments,
`drop(data)`, then `self.save()`. -/
def delete_post_evs : List Ev :=
  [.lockAcquire, .stateMutate, .stateMutate, .lockRelease] ++ save_evs

/-- `Storage::get_post_comments`: `self.get_post(post_id)?` (its own
lock section), then lock again and filter. -/
def get_post_comments_evs : List Ev :=
  get_post_evs ++ [.lockAcquire, .stateRead, .lockRelease]

/-- `Storage::create_comment`: lock, push, `drop(data)`, `self.save()`. -/
def create_comment_evs : List Ev :=
  [.lockAcquire, .stateMutate, .lockRelease] ++ save_evs

/-- `Storage::delete_comment`: lock, find the index, remove,
`drop(data)`, `self.save()`. -/
def delete_comment_evs : List Ev :=
  [.lockAcquire, .stateRead, .stateMutate, .lockRelease] ++ save_evs

/-- The property the claim asserts of an operation body: the lock is
acquired at the start, released only at the very end, and every other
event happens in between — a single critical section covering the
whole body. -/
def singleCriticalSection (t : List Ev) : Bool :=
  t.head? = some .lockAcquire &&
  t.getLast? = some .lockRelease &&
  ((t.drop 1).dropLast.all fun e => !(e = .lockAcquire) && !(e = .lockRelease))

/-- Lock-nesting check: scanning the trace with a lock-depth counter,
every state access and file write happens at positive depth, releases
match acquisitions, and the trace ends balanced. -/
def accessesLocked : List Ev → Nat → Bool
  | [], d => d = 0
  | .lockAcquire :: t, d => accessesLocked t (d + 1)
  | .lockRelease :: t, d => decide (0 < d) && accessesLocked t (d - 1)
  | .stateRead :: t, d => decide (0 < d) && accessesLocked t d
  | .stateMutate :: t, d => decide (0 < d) && accessesLocked t d
  | .fileWrite :: t, d => decide (0 < d) && accessesLocked t d

/-- Whether a lock release occurs strictly before the first file write
of the trace. -/
def releaseBeforeWrite (t : List Ev) : Bool :=
  (t.takeWhile fun e => !(e = Ev.fileWrite)).contains .lockRelease

/-! ### Concrete fixtures used by witnesses and counterexamples -/

def emptyState : StorageState := { data := BlogData.new, file := none }

def p1 : Post :=
  { id := 1, title := "Hello".toList, content := "World".toList,
    author := "Alice".toList, created_at := 10, updated_at := 10 }

def p2 : Post :=
  { id := 2, title := "Second".toList, content := "Post".toList,
    author := "Bob".toList, created_at := 11, updated_at := 11 }

def cA : Comment :=
  { id := 11, post_id := 1, content := "first".toList,
    author := "Carol".toList, created_at := 12, updated_at := 12 }

def cB : Comment :=
  { id := 12, post_id := 2, content := "second".toList,
    author := "Dan".toList, created_at := 13, updated_at := 13 }

def cC : Comment :=
  { id := 13, post_id := 1, content := "third".toList,
    author := "Erin".toList, created_at := 14, updated_at := 14 }

/-- A populated store: two posts, comments `cA`, `cC` on post 1 and
`cB` on post 2. -/
def st0 : StorageState :=
  { data := { posts := [(1, p1), (2, p2)], comments := [cA, cB, cC] },
    file := none }

/-- A comment whose `post_id` (99) matches no post of `emptyState`. -/
def cexComment : Comment :=
  { id := 5, post_id := 99, content := "hi".toList,
    author := "Zoe".toList, created_at := 0, updated_at := 0 }

/-- The euro sign: one character, three UTF-8 bytes. -/
def euroChar : Char := '€'

/-- 67 characters, 201 UTF-8 bytes. -/
def cexTitle : Str := List.replicate 67 euroChar

def cexCreate : CreatePost :=
  { title := cexTitle, content := "x".toList, author := "y".toList }

def goodCreate : CreatePost :=
  { title := "Hello".toList, content := "World".toList,
    author := "Alice".toList }

def title201Create : CreatePost :=
  { title := List.replicate 201 'a', content := "World".toList,
    author := "Alice".toList }

/-! ### Round-trip lemmas for the snapshot codec -/

theorem digitVal_digitChar (d : Nat) (h : d < 10) :
    digitVal (digitChar d) = some d := by
  interval_cases d <;> rfl

theorem digitsToNat_natDigits (n : Nat) :
    digitsToNat (natDigits n) = some n := by
  induction n using Nat.strong_induction_on with
  | _ n ih =>
    match n with
    | 0 => rw [natDigits]; rfl
    | m + 1 =>
      rw [natDigits]
      rw [digitsToNat]
      rw [ih ((m + 1) / 10) (Nat.div_lt_self (Nat.succ_pos m) (by decide))]
      rw [digitVal_digitChar _ (Nat.mod_lt _ (by decide))]
      show some ((m + 1) % 10 + 10 * ((m + 1) / 10)) = some (m + 1)
      rw [Nat.mod_add_div]

theorem natDigits_ne_nil (n : Nat) (h : n ≠ 0) : natDigits n ≠ [] := by
  match n with
  | 0 => exact absurd rfl h
  | m + 1 =>
    rw [natDigits]
    exact List.cons_ne_nil _ _

theorem strToNat_natToStr (n : Nat) : strToNat (natToStr n) = some n := by
  by_cases h : n = 0
  · subst h; rfl
  · rw [natToStr, if_neg h, strToNat]
    rw [if_neg (by
      simp only [List.isEmpty_iff, List.reverse_eq_nil_iff]
      exact natDigits_ne_nil n h)]
    rw [List.reverse_reverse]
    exact digitsToNat_natDigits n

theorem postFromJson_postToJson (p : Post) :
    postFromJson (postToJson p) = some p := by
  simp +decide [postToJson, postFromJson, jLookup, uuidToJson, uuidFromJson,
        timeToJson, timeFromJson, strFromJson, strToNat_natToStr,
        keyId, keyTitle, keyContent, keyAuthor, keyCreatedAt, keyUpdatedAt]

theorem commentFromJson_commentToJson (c : Comment) :
    commentFromJson (commentToJson c) = some c := by
  simp +decide [commentToJson, commentFromJson, jLookup, uuidToJson, uuidFromJson,
        timeToJson, timeFromJson, strFromJson, strToNat_natToStr,
        keyId, keyPostId, keyContent, keyAuthor, keyCreatedAt, keyUpdatedAt]

theorem postsFromJson_postsToJson (m : List (Uuid × Post)) :
    postsFromJson (postsToJson m) = some m := by
  induction m with
  | nil => rfl
  | cons kv rest ih =>
    simp only [postsToJson, List.map_cons] at ih ⊢
    rw [postsFromJson, strToNat_natToStr, postFromJson_postToJson, ih]

theorem commentsFromJson_map_commentToJson (l : List Comment) :
    commentsFromJson (l.map commentToJson) = some l := by
  induction l with
  | nil => rfl
  | cons c rest ih =>
    simp only [List.map_cons]
    rw [commentsFromJson, commentFromJson_commentToJson, ih]

theorem blogDataFromJson_blogDataToJson (d : BlogData) :
    blogDataFromJson (blogDataToJson d) = some d := by
  simp +decide [blogDataToJson, blogDataFromJson, jLookup, keyPosts, keyComments,
        postsFromJson_postsToJson, commentsFromJson_map_commentToJson]

/-! ### General helper lemmas -/

theorem one_le_utf8Len (c : Char) : 1 ≤ utf8Len c := by
  unfold utf8Len
  split_ifs <;> omega

theorem length_le_strBytes (s : Str) : s.length ≤ strBytes s := by
  induction s with
  | nil => exact Nat.le_refl 0
  | cons c cs ih =>
    have h1 := one_le_utf8Len c
    simp only [strBytes, List.map_cons, List.sum_cons, List.length_cons] at ih ⊢
    omega

theorem create_post_result (saveOk : Bool) (p : Post) (st : StorageState) :
    (create_post saveOk p st).1 = .ok p ∨
    (create_post saveOk p st).1 = .error (.StorageError saveErrMsg) := by
  cases saveOk <;> simp [create_post, save]

theorem findIdx?_append_first (p : α → Bool) (pre : List α) (c : α)
    (post : List α) (hc : p c = true) (hpre : ∀ x ∈ pre, p x = false) :
    (pre ++ c :: post).findIdx? p = some pre.length := by
  induction pre with
  | nil => simp [List.findIdx?_cons, hc]
  | cons a as ih =>
    have ha : p a = false := hpre a (List.mem_cons_self a as)
    have ih2 := ih fun x hx => hpre x (List.mem_cons_of_mem a hx)
    simp [List.findIdx?_cons, ha, List.findIdx?_succ, ih2]

theorem eraseIdx_length_append (pre : List α) (c : α) (post : List α) :
    (pre ++ c :: post).eraseIdx pre.length = pre ++ post := by
  induction pre with
  | nil => rfl
  | cons a as ih =>
    simp only [List.cons_append, List.length_cons, List.eraseIdx_cons_succ, ih]

/-! ### The claims -/

/-- C1: the claim states that `createComment` with a `post_id` absent
from the post collection fails with `PostNotFound` and leaves the
comment collection unchanged.  The source performs no existence check:
`create_comment` appends the comment unconditionally and can never
return `PostNotFound`; concretely, on the empty store, creating
`cexComment` (whose `post_id` 99 matches no post) succeeds, returns the
comment and inserts it. -/
theorem create_comment_ignores_post_existence :
    (∀ saveOk c st,
      (create_comment saveOk c st).2.data.comments = st.data.comments ++ [c] ∧
      ¬ (create_comment saveOk c st).1 = .error .PostNotFound) ∧
    postsGet cexComment.post_id emptyState.data.posts = none ∧
    (create_comment true cexComment emptyState).1 = .ok cexComment ∧
    (create_comment true cexComment emptyState).2.data.comments = [cexComment] := by
  refine ⟨fun saveOk c st => ?_, rfl, rfl, rfl⟩
  cases saveOk <;> simp [create_comment, save]

/-- C3 counterexample: the claim states that every store operation
holds the lock for its entire body, persistence included.  The body of
`Storage::create_post` is not a single critical section: it releases
the lock (`drop(data)`) and only then calls `save`, which re-acquires
it. -/
theorem create_post_not_single_critical_section :
    singleCriticalSection create_post_evs = false := by decide

/-- C3 amended: every state access and file write of every storage
method happens with the lock held and lock use is balanced, and the
read-only methods plus `save` itself are single critical sections; but
each mutating method releases the lock between its in-memory mutation
and the snapshot write (the release precedes the first file write), so
the mutation and its persistence are not covered by one lock
acquisition and other operations may interleave between them. -/
theorem lock_discipline :
    (accessesLocked create_post_evs 0 = true ∧
     accessesLocked update_post_evs 0 = true ∧
     accessesLocked delete_post_evs 0 = true ∧
     accessesLocked create_comment_evs 0 = true ∧
     accessesLocked delete_comment_evs 0 = true ∧
     accessesLocked get_all_posts_evs 0 = true ∧
     accessesLocked get_post_evs 0 = true ∧
     accessesLocked get_post_comments_evs 0 = true ∧
     accessesLocked save_evs 0 = true) ∧
    (singleCriticalSection save_evs = true ∧
     singleCriticalSection get_all_posts_evs = true ∧
     singleCriticalSection get_post_evs = true) ∧
    (releaseBeforeWrite create_post_evs = true ∧
     releaseBeforeWrite update_post_evs = true ∧
     releaseBeforeWrite delete_post_evs = true ∧
     releaseBeforeWrite create_comment_evs = true ∧
     releaseBeforeWrite delete_comment_evs = true) ∧
    (singleCriticalSection update_post_evs = false ∧
     singleCriticalSection delete_post_evs = false ∧
     singleCriticalSection create_comment_evs = false ∧
     singleCriticalSection delete_comment_evs = false ∧
     singleCriticalSection get_post_comments_evs = false) := by
  decide

/-- C8: serializing the state and loading the result reproduces it —
`save` (on success) writes exactly the serialized in-memory data to the
file without touching the data, and parsing that snapshot back, as
`Storage::new` does, yields the same posts under the same ids and the
same comments in the same order, for every state. -/
theorem snapshot_round_trip (st : StorageState) :
    (save true st).1 = .ok () ∧
    (save true st).2.file = some (blogDataToJson st.data) ∧
    (save true st).2.data = st.data ∧
    loadData (blogDataToJson st.data) = .ok st.data := by
  refine ⟨rfl, rfl, rfl, ?_⟩
  rw [loadData, blogDataFromJson_blogDataToJson]

/-- C2: for a present post, `delete_post` succeeds, removes exactly
that post from the map, and keeps exactly the comments whose `post_id`
differs, in their original order (the new comment sequence is the
filter of the old one, membership is characterized, and it is a
sublist); for an absent id it fails with `PostNotFound` and leaves the
state unchanged. -/
theorem delete_post_cascade (st : StorageState) (id : Uuid) :
    (∀ P, postsGet id st.data.posts = some P →
      (delete_post true id st).1 = .ok () ∧
      (delete_post true id st).2.data.posts = postsRemove id st.data.posts ∧
      (delete_post true id st).2.data.comments
        = st.data.comments.filter (fun c => !(c.post_id = id)) ∧
      (∀ kv, kv ∈ (delete_post true id st).2.data.posts ↔
        kv ∈ st.data.posts ∧ ¬ kv.1 = id) ∧
      (∀ c, c ∈ (delete_post true id st).2.data.comments ↔
        c ∈ st.data.comments ∧ ¬ c.post_id = id) ∧
      (delete_post true id st).2.data.comments.Sublist st.data.comments) ∧
    (postsGet id st.data.posts = none →
      delete_post true id st = (.error .PostNotFound, st)) := by
  constructor
  · intro P hP
    have hd : delete_post true id st
        = (.ok (),
           { data := { posts := postsRemove id st.data.posts,
                       comments := st.data.comments.filter (fun c => !(c.post_id = id)) },
             file := some (blogDataToJson
               { posts := postsRemove id st.data.posts,
                 comments := st.data.comments.filter (fun c => !(c.post_id = id)) }) }) := by
      unfold delete_post
      rw [hP]
      rfl
    rw [hd]
    refine ⟨rfl, rfl, rfl, ?_, ?_, List.filter_sublist _⟩
    · intro kv
      simp [postsRemove, List.mem_filter]
    · intro c
      simp [List.mem_filter]
  · intro hP
    unfold delete_post
    rw [hP]

/-- Witness for C2: deleting post 1 of the populated store `st0`
succeeds and keeps exactly `cB`, the one comment of post 2. -/
theorem delete_post_cascade_witness :
    (delete_post true 1 st0).1 = .ok () ∧
    (delete_post true 1 st0).2.data.comments = [cB] := by
  have h := (delete_post_cascade st0 1).1 p1 rfl
  refine ⟨h.1, ?_⟩
  rw [h.2.2.1]
  rfl

/-- C5: on a present post, `update_post` with both fields absent
returns a post with the same id, title, content, author and
`created_at`, with `updated_at` set to the clock reading (strictly
later whenever the clock is strictly ahead of the stored timestamp),
and stores it back under the same id; a present field overwrites the
corresponding field; and `Post.update` never fails on any input. -/
theorem update_post_semantics (st : StorageState) (id : Uuid) (now : Time) :
    (∀ p, postsGet id st.data.posts = some p →
      ∃ p', (update_post true id none none now st).1 = .ok p' ∧
        (update_post true id none none now st).2.data.posts
          = postsInsert id p' st.data.posts ∧
        (update_post true id none none now st).2.data.comments
          = st.data.comments ∧
        p'.id = p.id ∧ p'.title = p.title ∧ p'.content = p.content ∧
        p'.author = p.author ∧ p'.created_at = p.created_at ∧
        p'.updated_at = now ∧
        (p.updated_at < now → p.updated_at < p'.updated_at)) ∧
    (∀ (p : Post) (t c : Str) (now2 : Time),
      Post.update p { title := some t, content := some c } now2
        = .ok { p with title := t, content := c, updated_at := now2 }) ∧
    (∀ (p : Post) (u : UpdatePost) (now2 : Time), ∃ p',
      Post.update p u now2 = .ok p') := by
  refine ⟨?_, fun p t c now2 => rfl, fun p u now2 => ⟨_, rfl⟩⟩
  intro p hp
  refine ⟨{ p with updated_at := now }, ?_⟩
  have hu : update_post true id none none now st
      = (.ok ({ p with updated_at := now }),
         { data := { posts := postsInsert id { p with updated_at := now } st.data.posts,
                     comments := st.data.comments },
           file := some (blogDataToJson
             { posts := postsInsert id { p with updated_at := now } st.data.posts,
               comments := st.data.comments }) }) := by
    unfold update_post
    rw [hp]
    rfl
  rw [hu]
  exact ⟨rfl, rfl, rfl, rfl, rfl, rfl, rfl, rfl, rfl, fun h => h⟩

/-- Witness for C5: updating post 1 of `st0` with both fields absent at
clock reading 20 returns a post with the old title and `updated_at`
20, strictly later than the stored timestamp 10. -/
theorem update_post_semantics_witness :
    ∃ p', (update_post true 1 none none 20 st0).1 = .ok p' ∧
      p'.title = p1.title ∧ p'.updated_at = 20 ∧
      p1.updated_at < p'.updated_at := by
  obtain ⟨p', h1, _, _, _, h5, _, _, _, h9, h10⟩ :=
    (update_post_semantics st0 1 20).1 p1 rfl
  exact ⟨p', h1, h5, h9, h10 (by decide)⟩

/-- C6: `get_post_comments` fails with `PostNotFound` and keeps the
state unchanged when the post is absent; when it is present it returns,
without changing the state, exactly the comments whose `post_id`
matches, as a sublist of the stored sequence (hence in insertion
order). -/
theorem get_post_comments_spec (st : StorageState) (pid : Uuid) :
    (postsGet pid st.data.posts = none →
      get_post_comments pid st = (.error .PostNotFound, st)) ∧
    (∀ p, postsGet pid st.data.posts = some p →
      ∃ l, get_post_comments pid st = (.ok l, st) ∧
        l = st.data.comments.filter (fun c => c.post_id = pid) ∧
        (∀ c, c ∈ l ↔ c ∈ st.data.comments ∧ c.post_id = pid) ∧
        l.Sublist st.data.comments) := by
  constructor
  · intro h
    unfold get_post_comments get_post
    rw [h]
  · intro p hp
    refine ⟨st.data.comments.filter (fun c => c.post_id = pid), ?_, rfl, ?_,
      List.filter_sublist _⟩
    · unfold get_post_comments get_post
      rw [hp]
    · intro c
      simp [List.mem_filter]

/-- Witness for C6: listing the comments of post 1 in `st0` returns
`[cA, cC]` and leaves the state alone. -/
theorem get_post_comments_spec_witness :
    ∃ l, get_post_comments 1 st0 = (.ok l, st0) ∧ l = [cA, cC] := by
  obtain ⟨l, h1, h2, _, _⟩ := (get_post_comments_spec st0 1).2 p1 rfl
  exact ⟨l, h1, by rw [h2]; rfl⟩

/-- C9: when some stored comment has the requested id, `delete_comment`
removes the first such comment (posts and all other comments, before
and after it, are unchanged and keep their order) and succeeds; when no
stored comment has the id it fails with `CommentNotFound` and leaves
the state unchanged. -/
theorem delete_comment_spec (st : StorageState) (id : Uuid) :
    ((∀ c ∈ st.data.comments, ¬ c.id = id) →
      delete_comment true id st = (.error .CommentNotFound, st)) ∧
    (∀ pre c post, st.data.comments = pre ++ c :: post → c.id = id →
      (∀ c' ∈ pre, ¬ c'.id = id) →
      (delete_comment true id st).1 = .ok () ∧
      (delete_comment true id st).2.data.posts = st.data.posts ∧
      (delete_comment true id st).2.data.comments = pre ++ post) := by
  constructor
  · intro h
    have hf : st.data.comments.findIdx? (fun c => c.id = id) = none := by
      rw [List.findIdx?_eq_none_iff]
      intro c hc
      exact decide_eq_false (h c hc)
    unfold delete_comment
    rw [hf]
  · intro pre c post hsplit hc hpre
    have hf : st.data.comments.findIdx? (fun c => c.id = id) = some pre.length := by
      rw [hsplit]
      exact findIdx?_append_first _ pre c post (decide_eq_true hc)
        (fun x hx => decide_eq_false (hpre x hx))
    have he : st.data.comments.eraseIdx pre.length = pre ++ post := by
      rw [hsplit]
      exact eraseIdx_length_append pre c post
    have hd : delete_comment true id st
        = (.ok (),
           { data := { posts := st.data.posts,
                       comments := st.data.comments.eraseIdx pre.length },
             file := some (blogDataToJson
               { posts := st.data.posts,
                 comments := st.data.comments.eraseIdx pre.length }) }) := by
      unfold delete_comment
      rw [hf]
      rfl
    rw [hd]
    exact ⟨rfl, rfl, he⟩

/-- Witness for C9: deleting comment 12 (`cB`) from `st0` succeeds and
leaves `[cA, cC]`. -/
theorem delete_comment_spec_witness :
    (delete_comment true 12 st0).1 = .ok () ∧
    (delete_comment true 12 st0).2.data.comments = [cA] ++ [cC] := by
  have h := (delete_comment_spec st0 12).2 [cA] cB [cC] rfl rfl (by decide)
  exact ⟨h.1, h.2.2⟩

/-- C7: with the persistence step failing, each of the five mutating
operations returns `StorageError`, yet the in-memory state carries the
full effect of the operation (and the snapshot file is untouched):
nothing is rolled back. -/
theorem persistence_failure_mutates (st : StorageState) :
    (∀ p, (create_post false p st).1 = .error (.StorageError saveErrMsg) ∧
      (create_post false p st).2.data.posts = postsInsert p.id p st.data.posts ∧
      (create_post false p st).2.file = st.file) ∧
    (∀ id t c now p, postsGet id st.data.posts = some p →
      ∃ p', Post.update p { title := t, content := c } now = .ok p' ∧
        (update_post false id t c now st).1 = .error (.StorageError saveErrMsg) ∧
        (update_post false id t c now st).2.data.posts
          = postsInsert id p' st.data.posts) ∧
    (∀ id p, postsGet id st.data.posts = some p →
      (delete_post false id st).1 = .error (.StorageError saveErrMsg) ∧
      (delete_post false id st).2.data.posts = postsRemove id st.data.posts ∧
      (delete_post false id st).2.data.comments
        = st.data.comments.filter (fun c => !(c.post_id = id))) ∧
    (∀ c, (create_comment false c st).1 = .error (.StorageError saveErrMsg) ∧
      (create_comment false c st).2.data.comments = st.data.comments ++ [c]) ∧
    (∀ id i, st.data.comments.findIdx? (fun c => c.id = id) = some i →
      (delete_comment false id st).1 = .error (.StorageError saveErrMsg) ∧
      (delete_comment false id st).2.data.comments
        = st.data.comments.eraseIdx i) := by
  refine ⟨fun p => ⟨rfl, rfl, rfl⟩, ?_, ?_, fun c => ⟨rfl, rfl⟩, ?_⟩
  · intro id t c now p hp
    refine ⟨_, rfl, ?_⟩
    unfold update_post
    rw [hp]
    exact ⟨rfl, rfl⟩
  · intro id p hp
    unfold delete_post
    rw [hp]
    exact ⟨rfl, rfl, rfl⟩
  · intro id i hi
    unfold delete_comment
    rw [hi]
    exact ⟨rfl, rfl⟩

/-- Witness for C7: with persistence failing, creating `p2` on the
empty store reports `StorageError`; updating, deleting and commenting
on `st0` report `StorageError` while the in-memory effect stays (post 1
deleted leaves only `cB`; comment 12 deleted leaves `[cA, cC]`). -/
theorem persistence_failure_mutates_witness :
    (create_post false p2 emptyState).1 = .error (.StorageError saveErrMsg) ∧
    (∃ p', (update_post false 1 none none 20 st0).1
      = .error (.StorageError saveErrMsg) ∧
      Post.update p1 { title := none, content := none } 20 = .ok p') ∧
    (delete_post false 1 st0).2.data.comments = [cB] ∧
    (create_comment false cexComment st0).1 = .error (.StorageError saveErrMsg) ∧
    (delete_comment false 12 st0).2.data.comments = [cA, cC] := by
  refine ⟨((persistence_failure_mutates emptyState).1 p2).1, ?_, ?_, ?_, ?_⟩
  · obtain ⟨p', h1, h2, _⟩ := (persistence_failure_mutates st0).2.1 1 none none 20 p1 rfl
    exact ⟨p', h2, h1⟩
  · have h := (persistence_failure_mutates st0).2.2.1 1 p1 rfl
    rw [h.2.2]
    rfl
  · exact ((persistence_failure_mutates st0).2.2.2.1 cexComment).1
  · have h := (persistence_failure_mutates st0).2.2.2.2 12 1 rfl
    rw [h.2]
    rfl

/-- C4 counterexample: the claim says the create-post handler rejects
with `ValidationError` if and only if a field trims to empty or the
title exceeds 200 CHARACTERS.  The handler tests `title.len()`, the
UTF-8 byte count: `cexCreate` has a title of 67 characters (well under
200) yet 201 bytes, its fields are non-empty, and the handler rejects
it — while the claim, as worded (`specCreateRejects`), accepts it. -/
theorem create_post_title_limit_cex :
    (create_post_handler true 1 0 cexCreate emptyState).1
      = .error (.ValidationError msgTitleTooLong) ∧
    specCreateRejects cexCreate = false ∧
    cexCreate.title.length = 67 ∧
    strBytes cexCreate.title = 201 := by
  refine ⟨rfl, by decide, by decide, by decide⟩

/-- C4 amended: the create-post handler fails with `ValidationError` if
and only if title, content or author is empty after trimming or the
title exceeds 200 UTF-8 bytes; a title of 201 characters (hence more
than 200 bytes) with otherwise valid fields is rejected with the
message naming the 200 maximum; and a body passing the checks leads,
when persistence succeeds, to the new post being stored and
returned. -/
theorem create_post_validation (saveOk : Bool) (freshId : Uuid) (now : Time)
    (np : CreatePost) (st : StorageState) :
    ((∃ m, (create_post_handler saveOk freshId now np st).1
        = .error (.ValidationError m)) ↔
      ((trim np.title).isEmpty = true ∨ (trim np.content).isEmpty = true ∨
       (trim np.author).isEmpty = true ∨ 200 < strBytes np.title)) ∧
    (np.title.length = 201 →
      (trim np.title).isEmpty = false → (trim np.content).isEmpty = false →
      (trim np.author).isEmpty = false →
      (create_post_handler saveOk freshId now np st).1
        = .error (.ValidationError msgTitleTooLong)) ∧
    ((trim np.title).isEmpty = false → (trim np.content).isEmpty = false →
      (trim np.author).isEmpty = false → ¬ 200 < strBytes np.title →
      (create_post_handler true freshId now np st).1
        = .ok (Post.new np freshId now) ∧
      (create_post_handler true freshId now np st).2.data.posts
        = postsInsert freshId (Post.new np freshId now) st.data.posts) := by
  refine ⟨?_, ?_, ?_⟩
  · unfold create_post_handler
    split_ifs with h1 h2 h3 h4
    · exact ⟨fun _ => Or.inl h1, fun _ => ⟨msgTitleEmpty, rfl⟩⟩
    · exact ⟨fun _ => Or.inr (Or.inl h2), fun _ => ⟨msgContentEmpty, rfl⟩⟩
    · exact ⟨fun _ => Or.inr (Or.inr (Or.inl h3)),
        fun _ => ⟨msgAuthorEmpty, rfl⟩⟩
    · exact ⟨fun _ => Or.inr (Or.inr (Or.inr h4)),
        fun _ => ⟨msgTitleTooLong, rfl⟩⟩
    · constructor
      · rintro ⟨m, hm⟩
        rcases create_post_result saveOk (Post.new np freshId now) st with h | h <;>
          rw [hm] at h <;> simp [saveErrMsg] at h
      · rintro (h | h | h | h)
        · exact absurd h h1
        · exact absurd h h2
        · exact absurd h h3
        · exact absurd h h4
  · intro hlen h1 h2 h3
    have hb : 200 < strBytes np.title := by
      have := length_le_strBytes np.title
      omega
    unfold create_post_handler
    split_ifs with g1 g2 g3
    · rw [h1] at g1; exact absurd g1 (by simp)
    · rw [h2] at g2; exact absurd g2 (by simp)
    · rw [h3] at g3; exact absurd g3 (by simp)
    · rfl
  · intro h1 h2 h3 h4
    unfold create_post_handler
    split_ifs with g1 g2 g3
    · rw [h1] at g1; exact absurd g1 (by simp)
    · rw [h2] at g2; exact absurd g2 (by simp)
    · rw [h3] at g3; exact absurd g3 (by simp)
    · exact ⟨rfl, rfl⟩

set_option maxRecDepth 4000 in
/-- Witness for C4: the valid body `goodCreate` is accepted and stored,
and the 201-character ASCII title of `title201Create` is rejected with
the max-length message. -/
theorem create_post_validation_witness :
    ((create_post_handler true 1 0 goodCreate emptyState).1
        = .ok (Post.new goodCreate 1 0) ∧
      (create_post_handler true 1 0 goodCreate emptyState).2.data.posts
        = postsInsert 1 (Post.new goodCreate 1 0) emptyState.data.posts) ∧
    (create_post_handler true 1 0 title201Create emptyState).1
      = .error (.ValidationError msgTitleTooLong) := by
  constructor
  · exact (create_post_validation true 1 0 goodCreate emptyState).2.2
      rfl rfl rfl (by decide)
  · exact (create_post_validation true 1 0 title201Create emptyState).2.1
      (by decide) (by decide) rfl rfl

/-- C10: the read operations `get_all_posts`, `get_post` and
`get_post_comments` return the state unchanged on every input, whether
they succeed or fail (in the model the returned collections are values,
so they are independent of the stored state by construction, matching
the `.clone()` calls of the source). -/
theorem read_ops_preserve_state (st : StorageState) (id pid : Uuid) :
    get_all_posts st = (.ok st.data.posts, st) ∧
    (get_post id st).2 = st ∧
    (get_post_comments pid st).2 = st := by
  refine ⟨rfl, ?_, ?_⟩
  · unfold get_post
    cases postsGet id st.data.posts <;> rfl
  · unfold get_post_comments get_post
    cases postsGet pid st.data.posts <;> rfl

end Blog
